import Mathlib

/-!
Verification development for the constrapp-manager-pro repository.

The repository is a browser-resident construction-management record keeper:
four record kinds (Project, Worker, Task, Attendance) persisted in an
IndexedDB database (`DatabaseManager` in `src/components/SpeechInput.tsx`,
re-exported as `src/lib/database`), CRUD pages, a dashboard and PDF report
generators.

Shallow embedding conventions:
* A partition (IndexedDB object store) is modelled as a `List` of records in
  insertion order.  IndexedDB physically orders records by key, but no claim
  under consideration depends on enumeration order, and the claims about
  `getByIndex` are stated up to permutation.
* JavaScript `number` is modelled as `ℚ`; in every claim the arithmetic
  involved is exact (small sums and products of values with at most two
  decimal places), so the rational model agrees with IEEE doubles there.
* Optional (`field?:`) TypeScript fields are modelled as `Option`.
* `x.toFixed(2)` on a non-negative number is modelled by `formatFixed2`
  (round half up to cents, then print with two decimals); the claims only
  apply it to non-negative values where binary rounding cannot flip the
  decimal rounding (the exact values involved are never within 1/6 of a
  rounding tie).
-/

namespace ConstrApp

/-- `Material` value type, from the `Material` interface of
`src/lib/database` (embedded in projects and tasks, never stored alone). -/
structure Material where
  id : String
  name : String
  quantity : ℚ
  unit : String
  cost : Option ℚ
  supplier : Option String
deriving DecidableEq

/-- `Project` record, from the `Project` interface of `src/lib/database`.
`status` is one of "planning" | "active" | "completed" | "paused",
kept as a string exactly as the source compares it. -/
structure Project where
  id : String
  name : String
  description : String
  startDate : String
  endDate : String
  status : String
  budget : ℚ
  progress : ℚ
  location : String
  materials : Option (List Material)
  createdAt : String
deriving DecidableEq

/-- `Worker` record, from the `Worker` interface of `src/lib/database`.
`status` is "active" | "inactive". -/
structure Worker where
  id : String
  name : String
  role : String
  email : String
  phone : String
  hourlyRate : ℚ
  photo : Option String
  skills : List String
  status : String
  createdAt : String
deriving DecidableEq

/-- `Task` record, from the `Task` interface of `src/lib/database`.
`status` is "pending" | "in-progress" | "completed". -/
structure Task where
  id : String
  projectId : String
  title : String
  description : String
  assignedTo : List String
  status : String
  priority : String
  dueDate : String
  progress : ℚ
  createdAt : String
  materials : Option (List Material)
  images : Option (List String)
deriving DecidableEq

/-- `Attendance` record, from the `Attendance` interface of
`src/lib/database`.  The multi-row attendance page additionally stores a
`taskId` property on the record (`Attendance & { taskId?: string }`),
modelled here as an optional field. -/
structure Attendance where
  id : String
  workerId : String
  projectId : String
  taskId : Option String
  date : String
  checkIn : String
  checkOut : Option String
  hoursWorked : ℚ
  notes : Option String
  createdAt : String
deriving DecidableEq

namespace DatabaseManager

/-!
The store operations of `class DatabaseManager`
(`src/components/SpeechInput.tsx`).  Every object store is created with
`keyPath: "id"`; the operations are generic in the record type (the source
methods are generic in `T`), with the key projection passed explicitly.
All four partitions use `key = (·.id)`.
-/

variable {α : Type}

/-- `add(storeName, data)`: IndexedDB `store.add` rejects with a
`ConstraintError` when a record with the same key already exists, which the
method surfaces as a promise rejection; otherwise the record is stored. -/
def add (key : α → String) (recs : List α) (data : α) : Except String (List α) :=
  if recs.any (fun x => key x == key data) then
    Except.error "ConstraintError"
  else
    Except.ok (recs ++ [data])

/-- `update(storeName, data)`: IndexedDB `store.put` upserts by key,
overwriting the stored record wholesale. -/
def update (key : α → String) (recs : List α) (data : α) : List α :=
  if recs.any (fun x => key x == key data) then
    recs.map (fun x => if key x == key data then data else x)
  else
    recs ++ [data]

/-- `delete(storeName, id)`: IndexedDB `store.delete` succeeds whether or
not the key is present (deleting an absent key is a no-op). -/
def delete (key : α → String) (recs : List α) (id : String) : List α :=
  recs.filter (fun x => !(key x == id))

/-- `getAll(storeName)`: returns every record of the partition. -/
def getAll (recs : List α) : List α := recs

/-- `getById(storeName, id)`: `store.get` followed by
`request.result || null`: the record, or `null` (here `none`) when absent. -/
def getById (key : α → String) (recs : List α) (id : String) : Option α :=
  recs.find? (fun x => key x == id)

/-- `getByIndex(storeName, indexName, value)`: `index.getAll(value)` returns
exactly the records whose indexed property equals `value`. -/
def getByIndex (idx : α → String) (recs : List α) (value : String) : List α :=
  recs.filter (fun x => idx x == value)

end DatabaseManager

/-- The `projectId` secondary index on the tasks partition, created in
`DatabaseManager.init` by `taskStore.createIndex("projectId", "projectId")`. -/
def taskProjectIdIndex : Task → String := fun t => t.projectId

/-- JavaScript string truthiness in `a || b`: the empty string is falsy and
falls through to the default.  Used wherever the source writes
`value || "fallback"` on a string (a missing optional is modelled as `""`
before this is applied, matching `undefined || "fallback"`). -/
def jsOrDefault (s d : String) : String := if s = "" then d else s

/-- The form values of the feature-complete Workers page
(`workerSchema` in `src/unnamed/part_005`): name, role, email, phone,
hourlyRate and the comma-split skills list.  The form has no `status`,
`photo` or `createdAt` field. -/
structure WorkerFormValues where
  name : String
  role : String
  email : String
  phone : String
  hourlyRate : ℚ
  skills : List String
deriving DecidableEq

/-- The `workerData` record literal built by `Workers.onSubmit`
(`src/unnamed/part_005`, lines 74–89): `id` is the id being edited or a
fresh uuid; the form fields are copied; when editing, `status` and
`createdAt` are taken from the currently loaded record with that id
(`workers.find(w => w.id === editing)?.status || 'active'` and
`...?.createdAt || new Date().toISOString()`), otherwise the defaults
`'active'` / now are used; the literal carries no `photo` property. -/
def buildWorkerData (editing : Option String) (workers : List Worker)
    (freshId now : String) (data : WorkerFormValues) : Worker :=
  { id := editing.getD freshId
    name := data.name
    role := data.role
    email := data.email
    phone := data.phone
    hourlyRate := data.hourlyRate
    photo := none
    skills := data.skills
    status :=
      match editing with
      | some eid =>
          jsOrDefault
            (((workers.find? (fun w => w.id == eid)).map
              (fun w => w.status)).getD "") "active"
      | none => "active"
    createdAt :=
      match editing with
      | some eid =>
          jsOrDefault
            (((workers.find? (fun w => w.id == eid)).map
              (fun w => w.createdAt)).getD "") now
      | none => now }

/-! ### Report generators (`src/lib/pdf/`) -/

/-- Two-digit zero padding for the cents part of a fixed-point rendering. -/
def pad2 (n : Nat) : String := if n < 10 then "0" ++ toString n else toString n

/-- `x.toFixed(2)` for the non-negative values the reports print: round the
value to whole cents (half up) and print with exactly two decimals. -/
def formatFixed2 (q : ℚ) : String :=
  let cents := (⌊q * 100 + 1 / 2⌋).toNat
  toString (cents / 100) ++ "." ++ pad2 (cents % 100)

/-- `parseFloat(hours.toFixed(2))`: the numeric value rounded to two
decimal places (half up). -/
def round2 (q : ℚ) : ℚ := (⌊q * 100 + 1 / 2⌋ : ℚ) / 100

/-- The source renders dates with
`new Date(record.date).toLocaleDateString('es-ES')`, whose output depends
on the runtime locale and timezone data.  No claim depends on the rendered
shape, only on which record's date a cell comes from, so the rendering is
modelled as the identity on the stored date string. -/
def formatDateES (s : String) : String := s

/-- `projects.find(p => p.id === record.projectId)?.name || 'Desconocido'`:
the resolved project name, or the unknown marker when the reference is
dangling (or the resolved name is empty, via JS truthiness). -/
def resolveProjectName (projects : List Project) (pid : String) : String :=
  jsOrDefault (((projects.find? (fun p => p.id == pid)).map
    (fun p => p.name)).getD "") "Desconocido"

/-- One row of the worker report's recent-attendance table
(`WorkerReportGenerator.generateReport`, `src/lib/pdf/worker-report.ts`
lines 60–71): resolved project name, date, check-in, check-out (or the
`'Sin salida'` marker), hours to two decimals, and pay
`$ (hoursWorked * hourlyRate).toFixed(2)`. -/
def workerRow (w : Worker) (projects : List Project) (r : Attendance) :
    List String :=
  [ resolveProjectName projects r.projectId,
    formatDateES r.date,
    r.checkIn,
    jsOrDefault (r.checkOut.getD "") "Sin salida",
    formatFixed2 r.hoursWorked,
    "$" ++ formatFixed2 (r.hoursWorked * w.hourlyRate) ]

/-- JavaScript `array.slice(-n)`: the last `n` elements (the whole array
when it is shorter than `n`). -/
def jsSliceLast {α : Type} (l : List α) (n : Nat) : List α :=
  l.drop (l.length - n)

/-- The worker report's recent-attendance table body: the source builds it
from `attendance.slice(-10)` (and only when `attendance.length > 0`). -/
def workerReportRows (w : Worker) (attendance : List Attendance)
    (projects : List Project) : List (List String) :=
  if attendance.length > 0 then
    (jsSliceLast attendance 10).map (workerRow w projects)
  else []

/-- The worker report's computed summary
(`src/lib/pdf/worker-report.ts` lines 37–39): total hours by `reduce` over
`hoursWorked` from 0, total days as the record count, total earnings as
total hours times the worker's hourly rate. -/
structure WorkerSummary where
  totalDays : Nat
  totalHours : ℚ
  totalEarnings : ℚ
deriving DecidableEq

def workerReportSummary (w : Worker) (attendance : List Attendance) :
    WorkerSummary :=
  let totalHours := attendance.foldl (fun s r => s + r.hoursWorked) 0
  { totalDays := attendance.length
    totalHours := totalHours
    totalEarnings := totalHours * w.hourlyRate }

/-- Lexicographic order on character lists by code point; ISO-8601 date
strings (as the app stores them) compare chronologically under it. -/
def charListLe : List Char → List Char → Bool
  | [], _ => true
  | _ :: _, [] => false
  | x :: xs, y :: ys =>
      if x.toNat < y.toNat then true
      else if y.toNat < x.toNat then false
      else charListLe xs ys

/-- Date comparison used by the claimed (spec-side) sort: lexicographic on
the stored date strings. -/
def dateLe (a b : String) : Bool := charListLe a.data b.data

/-- Insertion of a record into a list kept in descending `date` order
(later dates first); ties keep the inserted record first. -/
def insertDescByDate (r : Attendance) : List Attendance → List Attendance
  | [] => [r]
  | x :: xs =>
      if dateLe x.date r.date then r :: x :: xs else x :: insertDescByDate r xs

/-- Sorting in descending `date` order (insertion sort). -/
def sortDescByDate (l : List Attendance) : List Attendance :=
  l.foldr insertDescByDate []

/-- Modelled from the spec's words, for comparison with the code: "the most
recent N (N=10) attendance records sorted descending by date", each
rendered as a table row.  This is the claimed behaviour, not the source's. -/
def claimedRecentRows (w : Worker) (attendance : List Attendance)
    (projects : List Project) : List (List String) :=
  ((sortDescByDate attendance).take 10).map (workerRow w projects)

/-- The attendance report's summary block
(`AttendanceReportGenerator.generateReport`,
`src/lib/pdf/attendance-report.ts` lines 18–27): total hours by `reduce`
over `hoursWorked` from 0, the size of `new Set(...map(workerId))`, and the
record count. -/
structure AttendanceSummary where
  totalHours : ℚ
  uniqueWorkers : Nat
  recordCount : Nat
deriving DecidableEq

def attendanceReportSummary (attendance : List Attendance) :
    AttendanceSummary :=
  { totalHours := attendance.foldl (fun s r => s + r.hoursWorked) 0
    uniqueWorkers := (attendance.map (fun r => r.workerId)).dedup.length
    recordCount := attendance.length }

/-- One row of the attendance report's table
(`src/lib/pdf/attendance-report.ts` lines 32–45): resolved worker name,
resolved project name, date, check-in, check-out (or `'Sin salida'`),
hours to two decimals, notes (or empty). -/
def attendanceRow (workers : List Worker) (projects : List Project)
    (r : Attendance) : List String :=
  [ jsOrDefault (((workers.find? (fun w => w.id == r.workerId)).map
      (fun w => w.name)).getD "") "Desconocido",
    resolveProjectName projects r.projectId,
    formatDateES r.date,
    r.checkIn,
    jsOrDefault (r.checkOut.getD "") "Sin salida",
    formatFixed2 r.hoursWorked,
    jsOrDefault (r.notes.getD "") "" ]

/-- The attendance report's table body: one row per record, built only when
`attendance.length > 0` (the empty input produces no table). -/
def attendanceReportRows (attendance : List Attendance)
    (workers : List Worker) (projects : List Project) : List (List String) :=
  if attendance.length > 0 then attendance.map (attendanceRow workers projects)
  else []

/-! ### Multi-row attendance submission (`src/unnamed/part_002`) -/

/-- One row of the multi-row attendance entry form
(`AttendanceFormValues` in `src/unnamed/part_002`): all-text fields plus a
numeric `hoursWorked`. -/
structure AttendanceFormValues where
  workerId : String
  projectId : String
  taskId : String
  date : String
  checkIn : String
  checkOut : String
  hoursWorked : ℚ
  notes : String
deriving DecidableEq

/-- The completeness check of `onSubmitRows`: a row is skipped when
`!data.workerId || !data.projectId || !data.taskId || !data.date ||
!data.hoursWorked` (JS falsiness: empty string for the text fields, zero
for the number). -/
def rowComplete (d : AttendanceFormValues) : Bool :=
  !(d.workerId == "" || d.projectId == "" || d.taskId == "" ||
    d.date == "" || d.hoursWorked == 0)

/-- The `attendanceData` record literal built by `onSubmitRows` for one
kept row (fresh-submission path, `editingId === null`): a fresh uuid, the
row's fields (`checkOut || undefined`, `notes || undefined`), and
`createdAt` set to the current timestamp. -/
def buildAttendance (id now : String) (d : AttendanceFormValues) :
    Attendance :=
  { id := id
    workerId := d.workerId
    projectId := d.projectId
    taskId := some d.taskId
    date := d.date
    checkIn := d.checkIn
    checkOut := if d.checkOut = "" then none else some d.checkOut
    hoursWorked := d.hoursWorked
    notes := if d.notes = "" then none else some d.notes
    createdAt := now }

/-- `AttendancePage.onSubmitRows` (fresh-submission path): iterate over the
rows in order, skip incomplete ones, and `db.add` a record for each
complete one; a rejected `add` aborts the loop (the surrounding
`try`/`catch`).  The fresh uuid drawn for each row is supplied alongside
the row. -/
def onSubmitRows (rows : List (String × AttendanceFormValues)) (now : String)
    (store : List Attendance) : Except String (List Attendance) :=
  match rows with
  | [] => Except.ok store
  | (id, d) :: rest =>
      if rowComplete d then
        match DatabaseManager.add (fun a => a.id) store
            (buildAttendance id now d) with
        | Except.error e => Except.error e
        | Except.ok store' => onSubmitRows rest now store'
      else onSubmitRows rest now store

/-! ### Dashboard aggregation (`src/components/Dashboard.tsx`, lines 58–69) -/

/-- `activeProjectIdsFromTasks`: the project ids referenced by tasks whose
status is `"pending"` or `"in-progress"` (the source collects them in a
`Set`; membership in the list is the same predicate). -/
def activeProjectIdsFromTasks (tasks : List Task) : List String :=
  (tasks.filter (fun t => t.status == "pending" || t.status == "in-progress")).map
    (fun t => t.projectId)

/-- `activeProjects`: the projects whose status is `"active"` or whose id
is referenced by some pending/in-progress task. -/
def activeProjects (projects : List Project) (tasks : List Task) :
    List Project :=
  projects.filter (fun p =>
    p.status == "active" || (activeProjectIdsFromTasks tasks).contains p.id)

/-- `stats.activeProjects`: the dashboard's "active projects" count. -/
def dashboardActiveProjects (projects : List Project) (tasks : List Task) :
    Nat :=
  (activeProjects projects tasks).length

/-! ### Derived hours helper (`src/pages/Attendance.tsx`, lines 141–158) -/

/-- Decimal digit value of a character, `none` for non-digits. -/
def digitVal (c : Char) : Option Nat :=
  if c = '0' then some 0 else if c = '1' then some 1 else
  if c = '2' then some 2 else if c = '3' then some 3 else
  if c = '4' then some 4 else if c = '5' then some 5 else
  if c = '6' then some 6 else if c = '7' then some 7 else
  if c = '8' then some 8 else if c = '9' then some 9 else none

/-- Accumulating decimal parse; on the empty list it returns the
accumulator, so `jsNumberNat []` is `some 0`, matching `Number("") === 0`. -/
def digitsToNatAux (acc : Nat) : List Char → Option Nat
  | [] => some acc
  | c :: cs =>
      match digitVal c with
      | some d => digitsToNatAux (acc * 10 + d) cs
      | none => none

/-- JavaScript `Number(part)` for the split time components: a (possibly
empty) run of decimal digits parses to its value (`Number("") === 0`),
anything else is `NaN`, modelled as `none` (all `NaN` comparisons in the
source are false, matching how `none` propagates below). -/
def jsNumberNat (l : List Char) : Option Nat := digitsToNatAux 0 l

/-- JavaScript `string.split(sep)` for a one-character separator, at the
character-list level. -/
def splitOnChar (sep : Char) : List Char → List (List Char)
  | [] => [[]]
  | c :: cs =>
      let rest := splitOnChar sep cs
      if c = sep then [] :: rest
      else
        match rest with
        | [] => [[c]]
        | g :: gs => (c :: g) :: gs

/-- `const [h, m] = s.split(':').map(Number)` followed by
`h * 60 + m`: the time of day in minutes, or `none` when the string does
not split into at least two components that `Number` accepts (in the
source that case yields `NaN`, whose comparisons are all false). -/
def parseTimeMinutes (s : String) : Option Nat :=
  match splitOnChar ':' s.data with
  | h :: m :: _ =>
      match jsNumberNat h, jsNumberNat m with
      | some hh, some mm => some (hh * 60 + mm)
      | _, _ => none
  | _ => none

/-- The slice of the single-row attendance form state that `calculateHours`
reads and writes. -/
structure AttendanceHoursForm where
  checkIn : String
  checkOut : String
  hoursWorked : ℚ
deriving DecidableEq

/-- `calculateHours`: when both time fields are non-empty, parse them; when
`outTime >= inTime`, set `hoursWorked` to the difference in minutes divided
by 60 and rounded to two decimals (`parseFloat(hours.toFixed(2))`);
otherwise (overnight, absent or unparseable times — `NaN` comparisons are
false) leave the form unchanged. -/
def calculateHours (f : AttendanceHoursForm) : AttendanceHoursForm :=
  if f.checkIn ≠ "" ∧ f.checkOut ≠ "" then
    match parseTimeMinutes f.checkIn, parseTimeMinutes f.checkOut with
    | some inTime, some outTime =>
        if inTime ≤ outTime then
          { f with hoursWorked := round2 (((outTime : ℚ) - (inTime : ℚ)) / 60) }
        else f
    | _, _ => f
  else f

/-! ### Sample records for witnesses and counterexamples -/

def sampleWorker : Worker :=
  { id := "w1", name := "Ana", role := "supervisor", email := "ana@obra.mx",
    phone := "555-0100", hourlyRate := 20, photo := none, skills := ["muro"],
    status := "active", createdAt := "2024-01-01T00:00:00.000Z" }

def sampleTask : Task :=
  { id := "t1", projectId := "p1", title := "Cimientos", description := "d",
    assignedTo := ["w1"], status := "in-progress", priority := "high",
    dueDate := "2024-06-01", progress := 40,
    createdAt := "2024-01-02T00:00:00.000Z", materials := none, images := none }

def sampleProjectPlanning : Project :=
  { id := "p1", name := "Torre Norte", description := "d",
    startDate := "2024-01-01", endDate := "2024-12-31", status := "planning",
    budget := 100000, progress := 10, location := "CDMX", materials := none,
    createdAt := "2024-01-01T00:00:00.000Z" }

/-- Attendance record with 4 hours worked, dated earlier. -/
def attFourHours : Attendance :=
  { id := "a1", workerId := "w1", projectId := "p1", taskId := none,
    date := "2024-05-01", checkIn := "08:00", checkOut := some "12:00",
    hoursWorked := 4, notes := none, createdAt := "2024-05-01T12:00:00.000Z" }

/-- Attendance record with 6 hours worked, dated later. -/
def attSixHours : Attendance :=
  { id := "a2", workerId := "w1", projectId := "p1", taskId := none,
    date := "2024-05-02", checkIn := "09:00", checkOut := none,
    hoursWorked := 6, notes := none, createdAt := "2024-05-02T16:00:00.000Z" }

def sampleWorkerForm : WorkerFormValues :=
  { name := "Ana Maria", role := "jefa de obra", email := "am@obra.mx",
    phone := "555-0101", hourlyRate := 25, skills := ["muro", "techo"] }

/-- Complete attendance form row. -/
def rowOne : AttendanceFormValues :=
  { workerId := "w1", projectId := "p1", taskId := "t1", date := "2024-05-01",
    checkIn := "08:00", checkOut := "12:00", hoursWorked := 4, notes := "" }

/-- Row missing its required `workerId`. -/
def rowTwo : AttendanceFormValues :=
  { workerId := "", projectId := "p1", taskId := "t1", date := "2024-05-01",
    checkIn := "08:00", checkOut := "13:00", hoursWorked := 5, notes := "" }

/-- Complete attendance form row. -/
def rowThree : AttendanceFormValues :=
  { workerId := "w2", projectId := "p1", taskId := "t1", date := "2024-05-01",
    checkIn := "09:00", checkOut := "15:00", hoursWorked := 6, notes := "ok" }

section StoreLemmas

variable {α : Type}

theorem add_ok_elim (key : α → String) (recs recs' : List α) (r : α)
    (h : DatabaseManager.add key recs r = Except.ok recs') :
    recs.any (fun x => key x == key r) = false ∧ recs' = recs ++ [r] := by
  unfold DatabaseManager.add at h
  by_cases hc : recs.any (fun x => key x == key r) = true
  · rw [if_pos hc] at h
    exact absurd h (by simp)
  · rw [if_neg hc] at h
    exact ⟨by simpa using hc, by simpa using h.symm⟩

theorem find?_append_right (p : α → Bool) (l₁ l₂ : List α)
    (h : ∀ x ∈ l₁, p x = false) :
    (l₁ ++ l₂).find? p = l₂.find? p := by
  induction l₁ with
  | nil => simp
  | cons a l ih =>
      have ha : p a = false := h a (List.mem_cons_self a l)
      simp only [List.cons_append, List.find?]
      rw [ha]
      exact ih (fun x hx => h x (List.mem_cons_of_mem a hx))

theorem add_then_getById (key : α → String) (recs recs' : List α) (r : α)
    (h : DatabaseManager.add key recs r = Except.ok recs') :
    DatabaseManager.getById key recs' (key r) = some r := by
  obtain ⟨hany, rfl⟩ := add_ok_elim key recs recs' r h
  unfold DatabaseManager.getById
  rw [find?_append_right]
  · simp [List.find?]
  · intro x hx
    have hall : ∀ y ∈ recs, ¬ key y = key r := by simpa using hany
    simpa using hall x hx

theorem find?_map_overwrite (key : α → String) (W : α) :
    ∀ recs : List α, recs.any (fun x => key x == key W) = true →
      (recs.map (fun x => if key x == key W then W else x)).find?
        (fun x => key x == key W) = some W := by
  intro recs
  induction recs with
  | nil => intro h; simp at h
  | cons a l ih =>
      intro h
      by_cases ha : (key a == key W) = true
      · simp [List.find?, ha]
      · have ha' : (key a == key W) = false := by
          simpa using ha
        have hl : l.any (fun x => key x == key W) = true := by
          rcases List.any_eq_true.mp h with ⟨y, hy, hpy⟩
          rcases List.mem_cons.mp hy with rfl | hyl
          · exact absurd hpy ha
          · exact List.any_eq_true.mpr ⟨y, hyl, hpy⟩
        simp only [List.map_cons, List.find?, ha', if_false]
        simpa [ha'] using ih hl

theorem getById_update_found (key : α → String) (recs : List α) (R W : α)
    (hfound : DatabaseManager.getById key recs (key W) = some R) :
    DatabaseManager.getById key (DatabaseManager.update key recs W) (key W)
      = some W := by
  unfold DatabaseManager.getById at hfound
  have hmem : R ∈ recs := List.mem_of_find?_eq_some hfound
  have hpred : (key R == key W) = true :=
    List.find?_some (p := fun x => key x == key W) hfound
  have hany : recs.any (fun x => key x == key W) = true :=
    List.any_eq_true.mpr ⟨R, hmem, hpred⟩
  unfold DatabaseManager.update DatabaseManager.getById
  rw [if_pos hany]
  exact find?_map_overwrite key W recs hany

theorem getById_delete_self (key : α → String) (recs : List α) (i : String) :
    DatabaseManager.getById key (DatabaseManager.delete key recs i) i = none := by
  unfold DatabaseManager.getById DatabaseManager.delete
  rw [List.find?_eq_none]
  intro x hx
  have hmem := List.mem_filter.mp hx
  simpa using hmem.2

theorem delete_idempotent (key : α → String) (recs : List α) (i : String) :
    DatabaseManager.delete key (DatabaseManager.delete key recs i) i
      = DatabaseManager.delete key recs i := by
  unfold DatabaseManager.delete
  rw [List.filter_filter]
  simp

end StoreLemmas

/-- C1: for every valid record of any of the four kinds, a successful
`db.add` into the partition for its kind followed by `getById` with the
record's id returns a record equal to it in every field, `id` and
`createdAt` included (the stored record is returned unchanged). -/
theorem insert_then_getById_roundtrip :
    (∀ (recs recs' : List Project) (r : Project),
      DatabaseManager.add (fun x => x.id) recs r = Except.ok recs' →
      DatabaseManager.getById (fun x => x.id) recs' r.id = some r) ∧
    (∀ (recs recs' : List Worker) (r : Worker),
      DatabaseManager.add (fun x => x.id) recs r = Except.ok recs' →
      DatabaseManager.getById (fun x => x.id) recs' r.id = some r) ∧
    (∀ (recs recs' : List Task) (r : Task),
      DatabaseManager.add (fun x => x.id) recs r = Except.ok recs' →
      DatabaseManager.getById (fun x => x.id) recs' r.id = some r) ∧
    (∀ (recs recs' : List Attendance) (r : Attendance),
      DatabaseManager.add (fun x => x.id) recs r = Except.ok recs' →
      DatabaseManager.getById (fun x => x.id) recs' r.id = some r) :=
  ⟨fun recs recs' r h => add_then_getById (fun x => x.id) recs recs' r h,
   fun recs recs' r h => add_then_getById (fun x => x.id) recs recs' r h,
   fun recs recs' r h => add_then_getById (fun x => x.id) recs recs' r h,
   fun recs recs' r h => add_then_getById (fun x => x.id) recs recs' r h⟩

/-- C1 witness: inserting a concrete worker into an empty partition and
reading it back by id yields that worker. -/
theorem insert_then_getById_roundtrip_witness :
    DatabaseManager.getById (fun x : Worker => x.id) [sampleWorker]
      sampleWorker.id = some sampleWorker :=
  insert_then_getById_roundtrip.2.1 [] [sampleWorker] sampleWorker (by rfl)

/-- C2: the store's `update` replaces the record wholesale (a subsequent
`getById` returns exactly the submitted record), and along the Workers
update path (`Workers.onSubmit` with `editing` set) the submitted record
keeps the stored record's `id` and `createdAt` while taking every form
field (name, role, email, phone, hourlyRate, skills) from the new values;
`status` is likewise carried over from the stored record (the form exposes
no status field) and the literal carries no photo.  The non-emptiness
hypotheses reflect JS `||` truthiness: an empty stored `createdAt`/`status`
would fall through to the defaults. -/
theorem replace_preserves_id_createdAt :
    (∀ (α : Type) (key : α → String) (recs : List α) (R W : α),
      DatabaseManager.getById key recs (key W) = some R →
      DatabaseManager.getById key (DatabaseManager.update key recs W) (key W)
        = some W) ∧
    (∀ (store : List Worker) (R : Worker) (eid freshId now : String)
        (data : WorkerFormValues),
      DatabaseManager.getById (fun w => w.id) store eid = some R →
      R.createdAt ≠ "" → R.status ≠ "" →
      (DatabaseManager.getById (fun w => w.id)
          (DatabaseManager.update (fun w => w.id) store
            (buildWorkerData (some eid) store freshId now data)) eid
        = some (buildWorkerData (some eid) store freshId now data)) ∧
      (buildWorkerData (some eid) store freshId now data).id = R.id ∧
      (buildWorkerData (some eid) store freshId now data).createdAt
        = R.createdAt ∧
      (buildWorkerData (some eid) store freshId now data).status = R.status ∧
      (buildWorkerData (some eid) store freshId now data).name = data.name ∧
      (buildWorkerData (some eid) store freshId now data).role = data.role ∧
      (buildWorkerData (some eid) store freshId now data).email = data.email ∧
      (buildWorkerData (some eid) store freshId now data).phone = data.phone ∧
      (buildWorkerData (some eid) store freshId now data).hourlyRate
        = data.hourlyRate ∧
      (buildWorkerData (some eid) store freshId now data).skills
        = data.skills ∧
      (buildWorkerData (some eid) store freshId now data).photo = none) := by
  constructor
  · intro α key recs R W hfound
    exact getById_update_found key recs R W hfound
  · intro store R eid freshId now data hfound hcreated hstatus
    have hfind : store.find? (fun w => w.id == eid) = some R := hfound
    have hRid : R.id = eid := by
      have := List.find?_some (p := fun w : Worker => w.id == eid) hfind
      simpa using this
    have hWid : (buildWorkerData (some eid) store freshId now data).id = eid :=
      rfl
    refine ⟨?_, ?_, ?_, ?_, rfl, rfl, rfl, rfl, rfl, rfl, rfl⟩
    · exact getById_update_found (fun w : Worker => w.id) store R
        (buildWorkerData (some eid) store freshId now data) hfound
    · rw [hWid, hRid]
    · show jsOrDefault (((store.find? (fun w => w.id == eid)).map
        (fun w => w.createdAt)).getD "") now = R.createdAt
      rw [hfind]
      simp [jsOrDefault, hcreated]
    · show jsOrDefault (((store.find? (fun w => w.id == eid)).map
        (fun w => w.status)).getD "") "active" = R.status
      rw [hfind]
      simp [jsOrDefault, hstatus]

/-- C2 witness: editing the sample worker with new form values keeps its
id and creation timestamp while the form fields change. -/
theorem replace_preserves_id_createdAt_witness :
    (DatabaseManager.getById (fun w => w.id)
        (DatabaseManager.update (fun w => w.id) [sampleWorker]
          (buildWorkerData (some "w1") [sampleWorker] "fresh"
            "2024-02-02T00:00:00.000Z" sampleWorkerForm)) "w1"
      = some (buildWorkerData (some "w1") [sampleWorker] "fresh"
          "2024-02-02T00:00:00.000Z" sampleWorkerForm)) ∧
    (buildWorkerData (some "w1") [sampleWorker] "fresh"
        "2024-02-02T00:00:00.000Z" sampleWorkerForm).id = sampleWorker.id ∧
    (buildWorkerData (some "w1") [sampleWorker] "fresh"
        "2024-02-02T00:00:00.000Z" sampleWorkerForm).createdAt
      = sampleWorker.createdAt ∧
    (buildWorkerData (some "w1") [sampleWorker] "fresh"
        "2024-02-02T00:00:00.000Z" sampleWorkerForm).status
      = sampleWorker.status ∧
    (buildWorkerData (some "w1") [sampleWorker] "fresh"
        "2024-02-02T00:00:00.000Z" sampleWorkerForm).name
      = sampleWorkerForm.name ∧
    (buildWorkerData (some "w1") [sampleWorker] "fresh"
        "2024-02-02T00:00:00.000Z" sampleWorkerForm).role
      = sampleWorkerForm.role ∧
    (buildWorkerData (some "w1") [sampleWorker] "fresh"
        "2024-02-02T00:00:00.000Z" sampleWorkerForm).email
      = sampleWorkerForm.email ∧
    (buildWorkerData (some "w1") [sampleWorker] "fresh"
        "2024-02-02T00:00:00.000Z" sampleWorkerForm).phone
      = sampleWorkerForm.phone ∧
    (buildWorkerData (some "w1") [sampleWorker] "fresh"
        "2024-02-02T00:00:00.000Z" sampleWorkerForm).hourlyRate
      = sampleWorkerForm.hourlyRate ∧
    (buildWorkerData (some "w1") [sampleWorker] "fresh"
        "2024-02-02T00:00:00.000Z" sampleWorkerForm).skills
      = sampleWorkerForm.skills ∧
    (buildWorkerData (some "w1") [sampleWorker] "fresh"
        "2024-02-02T00:00:00.000Z" sampleWorkerForm).photo = none :=
  replace_preserves_id_createdAt.2 [sampleWorker] sampleWorker "w1" "fresh"
    "2024-02-02T00:00:00.000Z" sampleWorkerForm (by rfl) (by decide) (by decide)

/-- C3: for every kind and every id, `db.delete` followed by `getById` on
that id returns `null` (the not-found sentinel), and deleting the same id a
second time is a no-op that completes successfully (it leaves the partition
exactly as after the first deletion; the modelled `delete` is total, as
IndexedDB `store.delete` succeeds on absent keys). -/
theorem remove_then_getById_none_and_remove_idempotent :
    (∀ (recs : List Project) (i : String),
      DatabaseManager.getById (fun x => x.id)
        (DatabaseManager.delete (fun x => x.id) recs i) i = none ∧
      DatabaseManager.delete (fun x => x.id)
        (DatabaseManager.delete (fun x => x.id) recs i) i
        = DatabaseManager.delete (fun x => x.id) recs i) ∧
    (∀ (recs : List Worker) (i : String),
      DatabaseManager.getById (fun x => x.id)
        (DatabaseManager.delete (fun x => x.id) recs i) i = none ∧
      DatabaseManager.delete (fun x => x.id)
        (DatabaseManager.delete (fun x => x.id) recs i) i
        = DatabaseManager.delete (fun x => x.id) recs i) ∧
    (∀ (recs : List Task) (i : String),
      DatabaseManager.getById (fun x => x.id)
        (DatabaseManager.delete (fun x => x.id) recs i) i = none ∧
      DatabaseManager.delete (fun x => x.id)
        (DatabaseManager.delete (fun x => x.id) recs i) i
        = DatabaseManager.delete (fun x => x.id) recs i) ∧
    (∀ (recs : List Attendance) (i : String),
      DatabaseManager.getById (fun x => x.id)
        (DatabaseManager.delete (fun x => x.id) recs i) i = none ∧
      DatabaseManager.delete (fun x => x.id)
        (DatabaseManager.delete (fun x => x.id) recs i) i
        = DatabaseManager.delete (fun x => x.id) recs i) :=
  ⟨fun recs i => ⟨getById_delete_self _ recs i, delete_idempotent _ recs i⟩,
   fun recs i => ⟨getById_delete_self _ recs i, delete_idempotent _ recs i⟩,
   fun recs i => ⟨getById_delete_self _ recs i, delete_idempotent _ recs i⟩,
   fun recs i => ⟨getById_delete_self _ recs i, delete_idempotent _ recs i⟩⟩

/-- C4: `getByIndex("tasks", "projectId", X)` returns exactly the stored
tasks whose `projectId` equals `X` (membership characterisation), the
result is permutation-invariant in the insertion order of the partition,
and a value with zero matches yields the empty list rather than an error. -/
theorem getByIndex_tasks_projectId_exact :
    ∀ (recs : List Task) (X : String),
      (∀ t, t ∈ DatabaseManager.getByIndex taskProjectIdIndex recs X ↔
        (t ∈ recs ∧ t.projectId = X)) ∧
      (∀ recs' : List Task, recs.Perm recs' →
        (DatabaseManager.getByIndex taskProjectIdIndex recs X).Perm
          (DatabaseManager.getByIndex taskProjectIdIndex recs' X)) ∧
      ((∀ t ∈ recs, t.projectId ≠ X) →
        DatabaseManager.getByIndex taskProjectIdIndex recs X = []) := by
  intro recs X
  refine ⟨?_, ?_, ?_⟩
  · intro t
    unfold DatabaseManager.getByIndex taskProjectIdIndex
    rw [List.mem_filter]
    simp
  · intro recs' hp
    exact hp.filter _
  · intro hnone
    unfold DatabaseManager.getByIndex taskProjectIdIndex
    rw [List.filter_eq_nil_iff]
    intro t ht
    simpa using hnone t ht

/-- C4 witness: on a one-task partition, a non-matching value returns the
empty list and the membership characterisation holds for the stored task. -/
theorem getByIndex_tasks_projectId_exact_witness :
    DatabaseManager.getByIndex taskProjectIdIndex [sampleTask] "p999" = [] ∧
    (sampleTask ∈ DatabaseManager.getByIndex taskProjectIdIndex [sampleTask] "p1" ↔
      (sampleTask ∈ [sampleTask] ∧ sampleTask.projectId = "p1")) :=
  ⟨(getByIndex_tasks_projectId_exact [sampleTask] "p999").2.2 (by decide),
   (getByIndex_tasks_projectId_exact [sampleTask] "p1").1 sampleTask⟩

/-! ### Report arithmetic helpers -/

theorem foldl_add_hours (att : List Attendance) :
    ∀ a : ℚ, att.foldl (fun s r => s + r.hoursWorked) a
      = a + (att.map (fun r => r.hoursWorked)).sum := by
  induction att with
  | nil => intro a; simp
  | cons x xs ih =>
      intro a
      simp only [List.foldl_cons, List.map_cons, List.sum_cons]
      rw [ih (a + x.hoursWorked)]
      ring

theorem formatFixed2_natCast (n : ℕ) :
    formatFixed2 (n : ℚ) = toString n ++ ".00" := by
  unfold formatFixed2
  have hfl : ⌊(n : ℚ) * 100 + 1 / 2⌋ = (100 * n : ℤ) := by
    have heq : (n : ℚ) * 100 + 1 / 2 = ((100 * n : ℤ) : ℚ) + 1 / 2 := by
      push_cast
      ring
    rw [heq, Int.floor_int_add]
    norm_num
  rw [hfl]
  have htn : ((100 * n : ℤ)).toNat = 100 * n := by
    rw [show ((100 * n : ℤ)) = ((100 * n : ℕ) : ℤ) by push_cast; ring]
    exact Int.toNat_natCast _
  simp only [htn]
  rw [Nat.mul_div_cancel_left n (by norm_num : 0 < 100), Nat.mul_mod_right]
  rw [String.append_assoc]
  congr 1

/-- C5 counterexample: with two attendance records whose input order is
oldest-first, the code's table (built from `attendance.slice(-10)` with no
sorting) lists the older record first, while the claimed
most-recent-first table lists the newer record first; the check-in cell of
the first row differs. -/
theorem worker_report_recent_counterexample :
    workerReportRows sampleWorker [attFourHours, attSixHours] []
      ≠ claimedRecentRows sampleWorker [attFourHours, attSixHours] [] := by
  intro h
  have h2 := congrArg (fun l => (l.getD 0 []).getD 2 "") h
  have hd : dateLe attSixHours.date attFourHours.date = false := by decide
  simp only [workerReportRows, claimedRecentRows, jsSliceLast, sortDescByDate,
    List.foldr, insertDescByDate, hd, if_false, List.length_cons,
    List.length_nil, List.take, List.drop, List.map_cons, List.map_nil,
    workerRow, List.getD, if_pos, gt_iff_lt] at h2
  simp [attFourHours, attSixHours] at h2

/-- C5 (amended): the worker report's per-record table shows the last
`min(10, n)` attendance records of the input list in input order — the
source applies `slice(-10)` and performs no sorting by date — and each row
shows the resolved project name (or the unknown marker), the record's
date, check-in, check-out (or the no-checkout marker), hours, and a
per-record pay cell equal to hoursWorked × hourlyRate formatted to two
decimals. -/
theorem worker_report_recent_amended :
    ∀ (w : Worker) (att : List Attendance) (ps : List Project),
      workerReportRows w att ps
        = (att.drop (att.length - 10)).map (workerRow w ps) ∧
      (workerReportRows w att ps).length = min att.length 10 ∧
      (∀ r ∈ att.drop (att.length - 10),
        (workerRow w ps r).getD 5 ""
            = "$" ++ formatFixed2 (r.hoursWorked * w.hourlyRate) ∧
        (workerRow w ps r).getD 0 "" = resolveProjectName ps r.projectId ∧
        (workerRow w ps r).getD 2 "" = r.checkIn ∧
        (workerRow w ps r).getD 3 ""
            = jsOrDefault (r.checkOut.getD "") "Sin salida" ∧
        (workerRow w ps r).getD 4 "" = formatFixed2 r.hoursWorked) := by
  intro w att ps
  have hrows : workerReportRows w att ps
      = (att.drop (att.length - 10)).map (workerRow w ps) := by
    unfold workerReportRows jsSliceLast
    by_cases hlen : att.length > 0
    · rw [if_pos hlen]
    · rw [if_neg hlen]
      have : att = [] := List.length_eq_zero.mp (by omega)
      subst this
      simp
  refine ⟨hrows, ?_, ?_⟩
  · rw [hrows, List.length_map, List.length_drop]
    omega
  · intro r _
    exact ⟨rfl, rfl, rfl, rfl, rfl⟩

/-- C5 amended witness: on a concrete two-record input the table has
`min 2 10 = 2` rows and the first record's pay cell is as stated. -/
theorem worker_report_recent_amended_witness :
    (workerReportRows sampleWorker [attFourHours, attSixHours] []).length
        = min 2 10 ∧
    (workerRow sampleWorker [] attFourHours).getD 5 ""
        = "$" ++ formatFixed2 (attFourHours.hoursWorked *
            sampleWorker.hourlyRate) :=
  ⟨(worker_report_recent_amended sampleWorker [attFourHours, attSixHours]
      []).2.1,
   ((worker_report_recent_amended sampleWorker [attFourHours, attSixHours]
      []).2.2 attFourHours (by decide)).1⟩

/-- C6: the worker report's summary counts the input records as total
days, sums `hoursWorked` for total hours, and multiplies total hours by
the worker's hourly rate for total earnings; on the concrete input of the
claim (hourlyRate 20, records of 4 and 6 hours) the rendered figures are
"10.00" hours, "200.00" earnings, and per-record pay "$80.00" and
"$120.00". -/
theorem worker_report_summary_totals :
    (∀ (w : Worker) (att : List Attendance),
      (workerReportSummary w att).totalDays = att.length ∧
      (workerReportSummary w att).totalHours
        = (att.map (fun r => r.hoursWorked)).sum ∧
      (workerReportSummary w att).totalEarnings
        = (att.map (fun r => r.hoursWorked)).sum * w.hourlyRate) ∧
    formatFixed2 (workerReportSummary sampleWorker
        [attFourHours, attSixHours]).totalHours = "10.00" ∧
    formatFixed2 (workerReportSummary sampleWorker
        [attFourHours, attSixHours]).totalEarnings = "200.00" ∧
    (workerReportRows sampleWorker [attFourHours, attSixHours] []).map
        (fun row => row.getD 5 "") = ["$80.00", "$120.00"] := by
  have hsum : ∀ (w : Worker) (att : List Attendance),
      (workerReportSummary w att).totalDays = att.length ∧
      (workerReportSummary w att).totalHours
        = (att.map (fun r => r.hoursWorked)).sum ∧
      (workerReportSummary w att).totalEarnings
        = (att.map (fun r => r.hoursWorked)).sum * w.hourlyRate := by
    intro w att
    refine ⟨rfl, ?_, ?_⟩
    · show att.foldl (fun s r => s + r.hoursWorked) 0 = _
      rw [foldl_add_hours att 0, zero_add]
    · show att.foldl (fun s r => s + r.hoursWorked) 0 * w.hourlyRate = _
      rw [foldl_add_hours att 0, zero_add]
  have hth : (workerReportSummary sampleWorker
      [attFourHours, attSixHours]).totalHours = ((10 : ℕ) : ℚ) := by
    rw [(hsum sampleWorker [attFourHours, attSixHours]).2.1]
    simp [attFourHours, attSixHours]
    norm_num
  have hte : (workerReportSummary sampleWorker
      [attFourHours, attSixHours]).totalEarnings = ((200 : ℕ) : ℚ) := by
    rw [(hsum sampleWorker [attFourHours, attSixHours]).2.2]
    simp [attFourHours, attSixHours, sampleWorker]
    norm_num
  refine ⟨hsum, ?_, ?_, ?_⟩
  · rw [hth, formatFixed2_natCast]
    decide
  · rw [hte, formatFixed2_natCast]
    decide
  · have h4 : attFourHours.hoursWorked * sampleWorker.hourlyRate
        = ((80 : ℕ) : ℚ) := by
      simp [attFourHours, sampleWorker]
      norm_num
    have h6 : attSixHours.hoursWorked * sampleWorker.hourlyRate
        = ((120 : ℕ) : ℚ) := by
      simp [attSixHours, sampleWorker]
      norm_num
    show ((jsSliceLast [attFourHours, attSixHours] 10).map
        (workerRow sampleWorker [])).map (fun row => row.getD 5 "") = _
    simp only [jsSliceLast, List.length_cons, List.length_nil, List.drop,
      List.map_cons, List.map_nil, workerRow, List.getD,
      List.getElem?_cons_succ, List.getElem?_cons_zero, h4, h6,
      formatFixed2_natCast]
    decide

/-- C7: the attendance report's summary sums `hoursWorked` for total
hours, counts distinct `workerId` values, and counts the records; the
empty input renders "0.00" total hours with no table rows rather than an
error. -/
theorem attendance_report_totals :
    ∀ (att : List Attendance) (ws : List Worker) (ps : List Project),
      (attendanceReportSummary att).totalHours
        = (att.map (fun r => r.hoursWorked)).sum ∧
      (attendanceReportSummary att).uniqueWorkers
        = (att.map (fun r => r.workerId)).toFinset.card ∧
      (attendanceReportSummary att).recordCount = att.length ∧
      (att = [] →
        formatFixed2 (attendanceReportSummary att).totalHours = "0.00" ∧
        attendanceReportRows att ws ps = []) := by
  intro att ws ps
  refine ⟨?_, ?_, rfl, ?_⟩
  · show att.foldl (fun s r => s + r.hoursWorked) 0 = _
    rw [foldl_add_hours att 0, zero_add]
  · show (att.map (fun r => r.workerId)).dedup.length = _
    rw [List.card_toFinset]
  · intro he
    subst he
    constructor
    · show formatFixed2 (([] : List Attendance).foldl
        (fun s r => s + r.hoursWorked) 0) = "0.00"
      have h0 : (([] : List Attendance).foldl
          (fun s r => s + r.hoursWorked) (0 : ℚ)) = ((0 : ℕ) : ℚ) := by
        norm_num
      rw [h0, formatFixed2_natCast]
      decide
    · rfl

/-- C7 witness: the empty attendance input yields zero totals, the "0.00"
rendering and an empty table. -/
theorem attendance_report_totals_witness :
    formatFixed2 (attendanceReportSummary []).totalHours = "0.00" ∧
    attendanceReportRows [] [] [] = [] :=
  (attendance_report_totals [] [] []).2.2.2 rfl

/-! ### Multi-row submission stepping lemmas -/

theorem onSubmitRows_cons_complete (id : String) (d : AttendanceFormValues)
    (rest : List (String × AttendanceFormValues)) (now : String)
    (store : List Attendance) (hd : rowComplete d = true)
    (hfree : (store.any fun x => x.id == id) = false) :
    onSubmitRows ((id, d) :: rest) now store
      = onSubmitRows rest now (store ++ [buildAttendance id now d]) := by
  conv_lhs => unfold onSubmitRows
  rw [if_pos hd]
  unfold DatabaseManager.add
  rw [if_neg (by simp [buildAttendance, hfree])]

theorem onSubmitRows_cons_incomplete (id : String) (d : AttendanceFormValues)
    (rest : List (String × AttendanceFormValues)) (now : String)
    (store : List Attendance) (hd : rowComplete d = false) :
    onSubmitRows ((id, d) :: rest) now store = onSubmitRows rest now store := by
  conv_lhs => unfold onSubmitRows
  rw [if_neg (by simp [hd])]

/-- C8: submitting three attendance rows where the middle one is missing
its required `workerId` and the other two are complete persists exactly the
first and third rows (two new records appended to the partition) and the
batch completes without error; the incomplete row is skipped silently. -/
theorem multi_row_attendance_partial_submit
    (d1 d2 d3 : AttendanceFormValues) (i1 i2 i3 now : String)
    (store : List Attendance)
    (h1 : rowComplete d1 = true) (h2 : d2.workerId = "")
    (h3 : rowComplete d3 = true)
    (hf1 : ∀ r ∈ store, r.id ≠ i1) (hf3 : ∀ r ∈ store, r.id ≠ i3)
    (hne : i1 ≠ i3) :
    onSubmitRows [(i1, d1), (i2, d2), (i3, d3)] now store
      = Except.ok (store ++
          [buildAttendance i1 now d1, buildAttendance i3 now d3]) ∧
    (store ++ [buildAttendance i1 now d1,
        buildAttendance i3 now d3]).length = store.length + 2 := by
  have hc2 : rowComplete d2 = false := by
    simp [rowComplete, h2]
  have ha1 : (store.any fun x => x.id == i1) = false := by
    simpa using hf1
  have ha3 : ((store ++ [buildAttendance i1 now d1]).any
      fun x => x.id == i3) = false := by
    rw [List.any_append]
    have hs : (store.any fun x => x.id == i3) = false := by
      simpa using hf3
    have hb : (([buildAttendance i1 now d1]).any
        fun x => x.id == i3) = false := by
      simp [buildAttendance, hne]
    rw [hs, hb]
    rfl
  constructor
  · rw [onSubmitRows_cons_complete i1 d1 _ now store h1 ha1,
      onSubmitRows_cons_incomplete i2 d2 _ now _ hc2,
      onSubmitRows_cons_complete i3 d3 _ now _ h3 ha3]
    unfold onSubmitRows
    rw [List.append_assoc]
    rfl
  · simp

/-- C8 witness: on an empty partition, submitting the three sample rows
(the second missing its workerId) stores exactly the two complete rows. -/
theorem multi_row_attendance_partial_submit_witness :
    onSubmitRows [("a1", rowOne), ("a2", rowTwo), ("a3", rowThree)]
        "2024-05-01T18:00:00.000Z" []
      = Except.ok [buildAttendance "a1" "2024-05-01T18:00:00.000Z" rowOne,
          buildAttendance "a3" "2024-05-01T18:00:00.000Z" rowThree] ∧
    ([] ++ [buildAttendance "a1" "2024-05-01T18:00:00.000Z" rowOne,
        buildAttendance "a3" "2024-05-01T18:00:00.000Z" rowThree]).length
      = List.length ([] : List Attendance) + 2 :=
  multi_row_attendance_partial_submit rowOne rowTwo rowThree "a1" "a2" "a3"
    "2024-05-01T18:00:00.000Z" [] (by decide) (by decide) (by decide)
    (by intro r hr; cases hr) (by intro r hr; cases hr) (by decide)

/-- C9: the dashboard's "active projects" figure counts exactly the union
of the projects whose own status is "active" with the projects referenced
by at least one pending or in-progress task, as a set of (id-unique)
projects. -/
theorem dashboard_active_projects_count (ps : List Project) (ts : List Task)
    (hnd : ps.Nodup) :
    dashboardActiveProjects ps ts
      = ((ps.toFinset.filter (fun p => p.status = "active")) ∪
         (ps.toFinset.filter (fun p =>
           ∃ t ∈ ts, (t.status = "pending" ∨ t.status = "in-progress") ∧
             t.projectId = p.id))).card := by
  unfold dashboardActiveProjects activeProjects
  rw [← List.toFinset_card_of_nodup (hnd.filter _)]
  rw [List.toFinset_filter]
  congr 1
  rw [← Finset.filter_or]
  apply Finset.filter_congr
  intro p _
  simp only [activeProjectIdsFromTasks, List.contains, List.elem_eq_mem,
    List.mem_map, List.mem_filter, Bool.or_eq_true, beq_iff_eq,
    decide_eq_true_eq]
  constructor
  · rintro (h | ⟨t, ⟨ht, hst⟩, hid⟩)
    · exact Or.inl h
    · exact Or.inr ⟨t, ht, by simpa using hst, hid⟩
  · rintro (h | ⟨t, ht, hst, hid⟩)
    · exact Or.inl h
    · exact Or.inr ⟨t, ⟨ht, by simpa using hst⟩, hid⟩

/-- C9 witness: a single project in status "planning" with one in-progress
task referencing it counts as one active project, matching the set-union
characterisation. -/
theorem dashboard_active_projects_count_witness :
    dashboardActiveProjects [sampleProjectPlanning] [sampleTask]
      = (((([sampleProjectPlanning] : List Project).toFinset.filter
            (fun p => p.status = "active")) ∪
          (([sampleProjectPlanning] : List Project).toFinset.filter
            (fun p => ∃ t ∈ [sampleTask],
              (t.status = "pending" ∨ t.status = "in-progress") ∧
                t.projectId = p.id)))).card ∧
    dashboardActiveProjects [sampleProjectPlanning] [sampleTask] = 1 :=
  ⟨dashboard_active_projects_count [sampleProjectPlanning] [sampleTask]
      (by decide),
   by decide⟩

/-! ### Derived-hours lemmas -/

theorem parseTimeMinutes_empty : parseTimeMinutes "" = none := by decide

theorem parseTimeMinutes_ne_empty (s : String) (t : Nat)
    (h : parseTimeMinutes s = some t) : s ≠ "" := by
  intro hs
  subst hs
  rw [parseTimeMinutes_empty] at h
  cases h

theorem round2_nonneg (q : ℚ) (hq : 0 ≤ q) : 0 ≤ round2 q := by
  unfold round2
  have h1 : (0 : ℤ) ≤ ⌊q * 100 + 1 / 2⌋ := by
    rw [Int.le_floor]
    push_cast
    nlinarith
  have h2 : (0 : ℚ) ≤ (⌊q * 100 + 1 / 2⌋ : ℚ) := by exact_mod_cast h1
  positivity

/-- C10: the derived-hours helper sets `hoursWorked` to the check-in /
check-out difference in minutes over 60, rounded to two decimals, exactly
when both times parse and check-out is not earlier than check-in; an
earlier check-out (overnight), an absent or unparseable time leaves the
form unchanged; and whenever the helper changes `hoursWorked` the new
value is non-negative. -/
theorem calculate_hours_never_negative :
    (∀ (f : AttendanceHoursForm) (tin tout : Nat),
      parseTimeMinutes f.checkIn = some tin →
      parseTimeMinutes f.checkOut = some tout →
      tin ≤ tout →
      (calculateHours f).hoursWorked
          = round2 (((tout : ℚ) - (tin : ℚ)) / 60) ∧
      (calculateHours f).checkIn = f.checkIn ∧
      (calculateHours f).checkOut = f.checkOut) ∧
    (∀ (f : AttendanceHoursForm) (tin tout : Nat),
      parseTimeMinutes f.checkIn = some tin →
      parseTimeMinutes f.checkOut = some tout →
      tout < tin → calculateHours f = f) ∧
    (∀ f : AttendanceHoursForm,
      parseTimeMinutes f.checkIn = none ∨
        parseTimeMinutes f.checkOut = none →
      calculateHours f = f) ∧
    (∀ f : AttendanceHoursForm,
      (calculateHours f).hoursWorked ≠ f.hoursWorked →
      0 ≤ (calculateHours f).hoursWorked) := by
  have hset : ∀ (f : AttendanceHoursForm) (tin tout : Nat),
      parseTimeMinutes f.checkIn = some tin →
      parseTimeMinutes f.checkOut = some tout →
      tin ≤ tout →
      calculateHours f
        = { f with hoursWorked := round2 (((tout : ℚ) - (tin : ℚ)) / 60) } := by
    intro f tin tout hin hout hle
    unfold calculateHours
    rw [if_pos ⟨parseTimeMinutes_ne_empty _ _ hin,
      parseTimeMinutes_ne_empty _ _ hout⟩]
    simp only [hin, hout]
    rw [if_pos hle]
  have hskip : ∀ (f : AttendanceHoursForm) (tin tout : Nat),
      parseTimeMinutes f.checkIn = some tin →
      parseTimeMinutes f.checkOut = some tout →
      tout < tin → calculateHours f = f := by
    intro f tin tout hin hout hlt
    unfold calculateHours
    by_cases hg : f.checkIn ≠ "" ∧ f.checkOut ≠ ""
    · rw [if_pos hg]
      simp only [hin, hout]
      rw [if_neg (by omega)]
    · rw [if_neg hg]
  have habsent : ∀ f : AttendanceHoursForm,
      parseTimeMinutes f.checkIn = none ∨
        parseTimeMinutes f.checkOut = none →
      calculateHours f = f := by
    intro f h
    unfold calculateHours
    by_cases hg : f.checkIn ≠ "" ∧ f.checkOut ≠ ""
    · rw [if_pos hg]
      rcases h with h | h
      · simp only [h]
      · cases hin : parseTimeMinutes f.checkIn with
        | none => simp only [hin]
        | some tin => simp only [hin, h]
    · rw [if_neg hg]
  refine ⟨fun f tin tout hin hout hle => ?_, hskip, habsent, ?_⟩
  · rw [hset f tin tout hin hout hle]
    exact ⟨rfl, rfl, rfl⟩
  · intro f hchanged
    by_cases hg : f.checkIn ≠ "" ∧ f.checkOut ≠ ""
    · cases hin : parseTimeMinutes f.checkIn with
      | none => exact absurd (congrArg (fun g => g.hoursWorked)
          (habsent f (Or.inl hin))) hchanged
      | some tin =>
          cases hout : parseTimeMinutes f.checkOut with
          | none => exact absurd (congrArg (fun g => g.hoursWorked)
              (habsent f (Or.inr hout))) hchanged
          | some tout =>
              by_cases hle : tin ≤ tout
              · rw [hset f tin tout hin hout hle]
                apply round2_nonneg
                have hc : (tin : ℚ) ≤ (tout : ℚ) := by exact_mod_cast hle
                have hsub : (0 : ℚ) ≤ (tout : ℚ) - (tin : ℚ) := by linarith
                positivity
              · exact absurd (congrArg (fun g => g.hoursWorked)
                  (hskip f tin tout hin hout (by omega))) hchanged
    · have : calculateHours f = f := by
        unfold calculateHours
        rw [if_neg hg]
      exact absurd (congrArg (fun g => g.hoursWorked) this) hchanged

/-- C10 witness: 08:00 to 10:30 yields 2.5 hours (the rounded difference),
an overnight 20:00 to 08:00 leaves the form unchanged, and an unparseable
check-out leaves the form unchanged. -/
theorem calculate_hours_never_negative_witness :
    (calculateHours
        { checkIn := "08:00", checkOut := "10:30", hoursWorked := 0 }).hoursWorked
      = round2 ((((630 : ℕ) : ℚ) - ((480 : ℕ) : ℚ)) / 60) ∧
    calculateHours
        { checkIn := "20:00", checkOut := "08:00", hoursWorked := 1 }
      = { checkIn := "20:00", checkOut := "08:00", hoursWorked := 1 } ∧
    calculateHours
        { checkIn := "08:00", checkOut := "salida", hoursWorked := 2 }
      = { checkIn := "08:00", checkOut := "salida", hoursWorked := 2 } :=
  ⟨(calculate_hours_never_negative.1
      { checkIn := "08:00", checkOut := "10:30", hoursWorked := 0 }
      480 630 (by decide) (by decide) (by decide)).1,
   calculate_hours_never_negative.2.1
      { checkIn := "20:00", checkOut := "08:00", hoursWorked := 1 }
      1200 480 (by decide) (by decide) (by decide),
   calculate_hours_never_negative.2.2.1
      { checkIn := "08:00", checkOut := "salida", hoursWorked := 2 }
      (Or.inr (by decide))⟩

end ConstrApp
